import Mathlib

/-!
Shallow embedding of `NSudoSDK/M2Win32Helpers.cpp` (M2-Team common library,
Win32 desktop helper functions) and proofs about its operations.

The helpers are straight-line sequences of OS calls.  Each OS call's outcome
is supplied by an explicit environment record, the code's control flow and
arithmetic are translated literally, and the observable effects (attribute
reads/writes, disposition calls, handle releases, out-parameter writes) are
returned as explicit traces or values.  Machine integers are modelled as
`Nat` with `% 2^32` / `% 2^64` where the C code converts or truncates.
-/

/-! ## Windows SDK constants (numeric values from the Windows headers) -/

def FILE_SHARE_READ : Nat := 0x00000001
def FILE_SHARE_WRITE : Nat := 0x00000002
def FILE_SHARE_DELETE : Nat := 0x00000004

def FILE_ATTRIBUTE_READONLY : Nat := 0x00000001
def FILE_ATTRIBUTE_HIDDEN : Nat := 0x00000002
def FILE_ATTRIBUTE_SYSTEM : Nat := 0x00000004
def FILE_ATTRIBUTE_ARCHIVE : Nat := 0x00000020
def FILE_ATTRIBUTE_NORMAL : Nat := 0x00000080
def FILE_ATTRIBUTE_TEMPORARY : Nat := 0x00000100
def FILE_ATTRIBUTE_OFFLINE : Nat := 0x00001000
def FILE_ATTRIBUTE_NOT_CONTENT_INDEXED : Nat := 0x00002000
def FILE_ATTRIBUTE_NO_SCRUB_DATA : Nat := 0x00020000

def S_OK : Nat := 0
def E_INVALIDARG : Nat := 0x80070057
def E_UNEXPECTED : Nat := 0x8000FFFF
def FACILITY_WIN32 : Nat := 7

/-- The Windows `HRESULT_FROM_WIN32` macro:
`(HRESULT)(x) <= 0 ? (HRESULT)(x)
 : (HRESULT)(((x) & 0x0000FFFF) | (FACILITY_WIN32 << 16) | 0x80000000)`.
A 32-bit value is `<= 0` as a signed `HRESULT` when it is zero or its sign
bit is set. -/
def HRESULT_FROM_WIN32 (x : Nat) : Nat :=
  if x % 2 ^ 32 = 0 ∨ 2 ^ 31 ≤ x % 2 ^ 32 then x % 2 ^ 32
  else ((x % 2 ^ 32) &&& 0x0000FFFF) ||| (FACILITY_WIN32 <<< 16) ||| 0x80000000

/-- The Windows `SUCCEEDED` macro: an `HRESULT` succeeds when it is
non-negative as a signed 32-bit value, i.e. its sign bit is clear. -/
def SUCCEEDED (hr : Nat) : Bool := decide (hr % 2 ^ 32 < 2 ^ 31)

/-- The Windows `FAILED` macro. -/
def FAILED (hr : Nat) : Bool := !SUCCEEDED hr

/-- Modelled from the spec: `M2GetLastError` is defined outside the sources
at hand (the repository's base-helpers unit); the spec describes it as the
translation of "the platform's last-error code" into the uniform result
code, i.e. the standard `HRESULT_FROM_WIN32` translation of `GetLastError()`.
It is modelled here as that translation applied to the last-error value the
environment supplies. -/
def M2GetLastError (lastError : Nat) : Nat := HRESULT_FROM_WIN32 lastError

/-! ## `M2SetFileAttributes` (M2Win32Helpers.cpp lines 103-127)

The function builds a `FILE_BASIC_INFO` whose `FileAttributes` field is the
input masked with
`FILE_SHARE_READ | FILE_SHARE_WRITE | FILE_SHARE_DELETE |
 FILE_ATTRIBUTE_ARCHIVE | FILE_ATTRIBUTE_TEMPORARY | FILE_ATTRIBUTE_OFFLINE |
 FILE_ATTRIBUTE_NOT_CONTENT_INDEXED | FILE_ATTRIBUTE_NO_SCRUB_DATA`
then or-ed with `FILE_ATTRIBUTE_NORMAL`, and hands it to
`SetFileInformationByHandle`. -/

/-- The attribute value `M2SetFileAttributes` actually applies for a given
input bitmask (the `BasicInfo.FileAttributes` passed to
`SetFileInformationByHandle`), translated literally from the source. -/
def M2SetFileAttributes_applied (dwFileAttributes : Nat) : Nat :=
  dwFileAttributes &&& (
      FILE_SHARE_READ |||
      FILE_SHARE_WRITE |||
      FILE_SHARE_DELETE |||
      FILE_ATTRIBUTE_ARCHIVE |||
      FILE_ATTRIBUTE_TEMPORARY |||
      FILE_ATTRIBUTE_OFFLINE |||
      FILE_ATTRIBUTE_NOT_CONTENT_INDEXED |||
      FILE_ATTRIBUTE_NO_SCRUB_DATA) |||
    FILE_ATTRIBUTE_NORMAL

/-- The recognized-attribute mask as the spec's words state it: read-only,
hidden, archive, temporary, offline, not-content-indexed, no-scrub-data
(the spec's list does not contain the system attribute).  Written from the
spec, for comparison with `M2SetFileAttributes_applied`. -/
def specRecognizedMask : Nat :=
  FILE_ATTRIBUTE_READONLY |||
  FILE_ATTRIBUTE_HIDDEN |||
  FILE_ATTRIBUTE_ARCHIVE |||
  FILE_ATTRIBUTE_TEMPORARY |||
  FILE_ATTRIBUTE_OFFLINE |||
  FILE_ATTRIBUTE_NOT_CONTENT_INDEXED |||
  FILE_ATTRIBUTE_NO_SCRUB_DATA

/-- The applied value as the spec claims it: input restricted to the spec's
recognized flags, combined with the normal flag. -/
def specApplied (dwFileAttributes : Nat) : Nat :=
  (dwFileAttributes &&& specRecognizedMask) ||| FILE_ATTRIBUTE_NORMAL

/-! ## The unprotect value in `M2DeleteFile` (line 175)

`OldAttribute & (-1 ^ FILE_ATTRIBUTE_READONLY)`: in C, `-1` is the all-ones
32-bit pattern, so the mask is `0xFFFFFFFE`. -/

/-- The attribute value `M2DeleteFile` passes to `M2SetFileAttributes` in the
unprotect step: `OldAttribute & (-1 ^ FILE_ATTRIBUTE_READONLY)`, with `-1`
modelled as the all-ones 32-bit value. -/
def unprotectValue (oldAttribute : Nat) : Nat :=
  oldAttribute &&& ((2 ^ 32 - 1) ^^^ FILE_ATTRIBUTE_READONLY)

/-! ## `M2DeleteFile` (M2Win32Helpers.cpp lines 141-196)

The function opens the path, optionally saves the attributes and clears the
read-only bit, sets the delete disposition, restores the attributes when
`bForceDeleteReadOnlyFile & !SUCCEEDED(hr)`, and closes the handle.  The
outcomes of the OS calls are supplied by `DeleteEnv`; the calls the run
performs on the handle are recorded, in program order, as a `DeleteEvent`
trace.  Event constructors correspond one-to-one to the call sites in the
source. -/

/-- One OS call performed by a run of `M2DeleteFile`, tagged by call site. -/
inductive DeleteEvent where
  /-- The `CreateFileW` call (line 148). -/
  | openCall : DeleteEvent
  /-- The `M2GetFileAttributes` read of the current attributes (line 170). -/
  | readAttr : DeleteEvent
  /-- The unprotect `M2SetFileAttributes` write (line 173), with the value
  passed to it. -/
  | unprotectWrite (value : Nat) : DeleteEvent
  /-- The `SetFileInformationByHandle(FileDispositionInfo)` call (line 179),
  with the `DeleteFile` member of the disposition record. -/
  | setDisposition (delete : Bool) : DeleteEvent
  /-- The restore `M2SetFileAttributes` write (line 190), with the value
  passed to it. -/
  | restoreWrite (value : Nat) : DeleteEvent
  /-- The `CloseHandle` call at `Cleanup:` (line 193). -/
  | closeHandle : DeleteEvent
deriving DecidableEq, Repr

/-- Outcomes of the OS calls a run of `M2DeleteFile` can make.  `openErr` and
`dispErr` are the `GetLastError()` values observed after a failing open or
disposition call; `curAttr` is what `M2GetFileAttributes` returns;
`unprotectHr` and `restoreHr` are the `HRESULT`s the two
`M2SetFileAttributes` calls return (the source discards both). -/
structure DeleteEnv where
  openOk : Bool
  openErr : Nat
  curAttr : Nat
  unprotectHr : Nat
  dispOk : Bool
  dispErr : Nat
  restoreHr : Nat
deriving DecidableEq, Repr

/-- C++ `bool` promoted to `int`, as used by the source's bitwise `&` on
`bForceDeleteReadOnlyFile & !SUCCEEDED(hr)` (line 189). -/
def boolToInt (b : Bool) : Nat := if b then 1 else 0

/-- Shallow embedding of `M2DeleteFile`: returns the `HRESULT` and the trace
of handle operations performed, in order. -/
def M2DeleteFile (env : DeleteEnv) (bForceDeleteReadOnlyFile : Bool) :
    Nat × List DeleteEvent :=
  if env.openOk = false then
    -- hr = M2GetLastError(); goto Cleanup; CloseHandle(hFile); return hr
    (M2GetLastError env.openErr, [DeleteEvent.openCall, DeleteEvent.closeHandle])
  else
    -- DWORD OldAttribute = 0; overwritten only under the force flag
    let oldAttribute : Nat := if bForceDeleteReadOnlyFile then env.curAttr else 0
    let forceEvents : List DeleteEvent :=
      if bForceDeleteReadOnlyFile then
        [DeleteEvent.readAttr,
         DeleteEvent.unprotectWrite (unprotectValue env.curAttr)]
      else []
    let hr : Nat := if env.dispOk then S_OK else M2GetLastError env.dispErr
    -- if (bForceDeleteReadOnlyFile & !SUCCEEDED(hr)) — bitwise AND on the
    -- promoted booleans, as written in the source
    let restoreEvents : List DeleteEvent :=
      if boolToInt bForceDeleteReadOnlyFile &&& boolToInt (!SUCCEEDED hr) ≠ 0 then
        [DeleteEvent.restoreWrite oldAttribute]
      else []
    (hr,
     DeleteEvent.openCall ::
       forceEvents ++
         DeleteEvent.setDisposition true ::
           restoreEvents ++ [DeleteEvent.closeHandle])

/-- Number of events in a trace satisfying a predicate. -/
def countEvent (p : DeleteEvent → Bool) (t : List DeleteEvent) : Nat :=
  (t.filter p).length

/-- Recognizes the restore-write call site. -/
def isRestoreWrite : DeleteEvent → Bool
  | DeleteEvent.restoreWrite _ => true
  | _ => false

/-- Recognizes either attribute-write call site. -/
def isAttrWrite : DeleteEvent → Bool
  | DeleteEvent.unprotectWrite _ => true
  | DeleteEvent.restoreWrite _ => true
  | _ => false

/-- Recognizes the attribute-read call site. -/
def isAttrRead : DeleteEvent → Bool
  | DeleteEvent.readAttr => true
  | _ => false

/-- Recognizes the delete-disposition call site. -/
def isDispositionCall : DeleteEvent → Bool
  | DeleteEvent.setDisposition _ => true
  | _ => false

/-- Recognizes the handle-release call site. -/
def isCloseHandle : DeleteEvent → Bool
  | DeleteEvent.closeHandle => true
  | _ => false

/-! ## `M2GetFileAllocationSize` / `M2GetFileSize` (lines 211-253, 267-309)

Both open the path, query `FILE_STANDARD_INFO`, and write one field of the
result (`AllocationSize.QuadPart` resp. `EndOfFile.QuadPart`, both signed
64-bit, cast to `ULONGLONG`) into the out-parameter, which is zeroed at
entry.  One environment models the file: `FILE_STANDARD_INFO` carries both
fields. -/

/-- Outcomes of the OS calls of the two size-query helpers: the open, the
`GetFileInformationByHandleEx(FileStandardInfo)` query, and the two signed
64-bit `QuadPart` fields the query returns. -/
structure SizeQueryEnv where
  openOk : Bool
  openErr : Nat
  queryOk : Bool
  queryErr : Nat
  allocationSize : Int
  endOfFile : Int
deriving DecidableEq, Repr

/-- `static_cast<ULONGLONG>` of a signed 64-bit value: reduce modulo `2^64`
into the unsigned range. -/
def toULONGLONG (q : Int) : Nat := (q % (2 ^ 64 : Int)).toNat

/-- Shallow embedding of `M2GetFileAllocationSize`: returns the `HRESULT`
and the final value of `*lpAllocationSize` (zeroed at entry, written with
the queried allocation size only when both calls succeed). -/
def M2GetFileAllocationSize (env : SizeQueryEnv) : Nat × Nat :=
  if env.openOk = false then
    (M2GetLastError env.openErr, 0)
  else if env.queryOk = false then
    (M2GetLastError env.queryErr, 0)
  else
    (S_OK, toULONGLONG env.allocationSize)

/-- Shallow embedding of `M2GetFileSize`: returns the `HRESULT` and the
final value of `*lpFileSize` (zeroed at entry, written with the queried
end-of-file size only when both calls succeed). -/
def M2GetFileSize (env : SizeQueryEnv) : Nat × Nat :=
  if env.openOk = false then
    (M2GetLastError env.openErr, 0)
  else if env.queryOk = false then
    (M2GetLastError env.queryErr, 0)
  else
    (S_OK, toULONGLONG env.endOfFile)

/-! ## `M2GetWindowsDirectory` (lines 318-358)

Two-call size-probe-then-fill: probe `GetSystemWindowsDirectoryW(nullptr,0)`
for the needed length (including the terminator), resize the string to
`Length - 1`, fill it with a second call, check the second call's return
against the string's size, and clear the string whenever the final
`HRESULT` failed.  The wide string is modelled as a `List Nat` of character
codes. -/

/-- Outcomes of the two `GetSystemWindowsDirectoryW` calls: the probe's
return value (0 = failure) and last error, the fill call's return value
(0 = failure) and last error, and the character data the fill call writes
into the buffer. -/
structure WinDirEnv where
  probeLen : Nat
  probeErr : Nat
  fillLen : Nat
  fillErr : Nat
  fillData : List Nat
deriving DecidableEq, Repr

/-- `std::wstring::resize(n)`: truncate or zero-pad to length `n`. -/
def resizeStr (s : List Nat) (n : Nat) : List Nat :=
  s.take n ++ List.replicate (n - s.length) 0

/-- Writing `data` into a buffer through `&s[0]` overwrites a prefix of the
buffer in place; the buffer's length cannot change. -/
def writeBuffer (buf data : List Nat) : List Nat :=
  data.take buf.length ++ buf.drop data.length

/-- Shallow embedding of `M2GetWindowsDirectory`: given the OS outcomes and
the string's initial contents, returns the `HRESULT` and the final contents
of `WindowsFolderPath`. -/
def M2GetWindowsDirectory (env : WinDirEnv) (windowsFolderPath : List Nat) :
    Nat × List Nat :=
  let step : Nat × List Nat :=
    if env.probeLen = 0 then
      (M2GetLastError env.probeErr, windowsFolderPath)
    else
      let s1 := resizeStr windowsFolderPath (env.probeLen - 1)
      let s2 := writeBuffer s1 env.fillData
      if env.fillLen = 0 then
        (M2GetLastError env.fillErr, s2)
      else if s2.length ≠ env.fillLen then
        (E_UNEXPECTED, s2)
      else
        (S_OK, s2)
  if FAILED step.1 then (step.1, []) else step

/-! ## `M2LoadResource` (lines 35-63)

Zeroes the out-structure, calls `FindResourceExW`, on success stores
`SizeofResource` into `Size`, calls `LoadResource`, on success stores
`LockResource`'s pointer, and returns `HRESULT_FROM_WIN32(GetLastError())`
with the last error initialized to `ERROR_SUCCESS` at entry.  The
out-structure is `none` when the caller passed a null pointer (the
`E_INVALIDARG` path writes nothing). -/

/-- The `M2_RESOURCE_INFO` out-structure; a pointer is a `Nat` address with
`0` for null. -/
structure M2_RESOURCE_INFO where
  Size : Nat
  Pointer : Nat
deriving DecidableEq, Repr

/-- Outcomes of the OS calls of `M2LoadResource`: whether the caller's
out-pointer is null, whether `FindResourceExW` finds the resource (and the
last error it sets when it fails), the `SizeofResource` value, whether
`LoadResource` succeeds (and the last error it sets when it fails), and the
pointer `LockResource` returns. -/
structure LoadResEnv where
  infoNull : Bool
  findOk : Bool
  findErr : Nat
  resSize : Nat
  loadOk : Bool
  loadErr : Nat
  lockPtr : Nat
deriving DecidableEq, Repr

/-- Shallow embedding of `M2LoadResource`: returns the `HRESULT` and the
final contents of `*lpResourceInfo` (`none` on the null-argument path, on
which the structure is never written). -/
def M2LoadResource (env : LoadResEnv) : Nat × Option M2_RESOURCE_INFO :=
  if env.infoNull then
    (E_INVALIDARG, none)
  else
    -- SetLastError(ERROR_SUCCESS); Size = 0; Pointer = nullptr
    if env.findOk = false then
      (HRESULT_FROM_WIN32 env.findErr,
       some { Size := 0, Pointer := 0 })
    else if env.loadOk = false then
      (HRESULT_FROM_WIN32 env.loadErr,
       some { Size := env.resSize, Pointer := 0 })
    else
      (HRESULT_FROM_WIN32 0,
       some { Size := env.resSize, Pointer := env.lockPtr })

/-! ## Helper lemmas -/

/-- A nonzero 32-bit last-error value always translates to a failing
`HRESULT`: either the value already has its sign bit set and is returned
unchanged, or `0x80000000` is or-ed in. -/
theorem SUCCEEDED_M2GetLastError (e : Nat) (h1 : e % 2 ^ 32 ≠ 0) :
    SUCCEEDED (M2GetLastError e) = false := by
  unfold M2GetLastError HRESULT_FROM_WIN32 SUCCEEDED
  have he32lt : e % 2 ^ 32 < 2 ^ 32 := Nat.mod_lt _ (by norm_num)
  by_cases hc : e % 2 ^ 32 = 0 ∨ 2 ^ 31 ≤ e % 2 ^ 32
  · rw [if_pos hc]
    rcases hc with h | h
    · exact absurd h h1
    · rw [Nat.mod_eq_of_lt he32lt, decide_eq_false_iff_not]
      omega
  · rw [if_neg hc]
    push_neg at hc
    have hlo : (e % 2 ^ 32 &&& 0x0000FFFF) ||| FACILITY_WIN32 <<< 16 < 2 ^ 32 := by
      apply Nat.or_lt_two_pow
      · exact lt_of_le_of_lt Nat.and_le_right (by norm_num)
      · decide
    have hrlt :
        (e % 2 ^ 32 &&& 0x0000FFFF) ||| FACILITY_WIN32 <<< 16 ||| 0x80000000 <
          2 ^ 32 :=
      Nat.or_lt_two_pow hlo (by norm_num)
    have hge :
        2 ^ 31 ≤
          (e % 2 ^ 32 &&& 0x0000FFFF) ||| FACILITY_WIN32 <<< 16 ||| 0x80000000 := by
      apply Nat.testBit_implies_ge (i := 31)
      rw [Nat.testBit_or]
      have : Nat.testBit 0x80000000 31 = true := by decide
      simp [this]
    rw [Nat.mod_eq_of_lt hrlt, decide_eq_false_iff_not]
    omega

/-- `S_OK` is a succeeding `HRESULT`. -/
theorem SUCCEEDED_S_OK : SUCCEEDED S_OK = true := by decide

/-- `E_UNEXPECTED` is a failing `HRESULT`. -/
theorem FAILED_E_UNEXPECTED : FAILED E_UNEXPECTED = true := by decide

/-! ## Claim theorems -/

/-- **C2** (counterexample): the claim that the applied attribute value is
the input restricted to exactly the flags read-only, hidden, archive,
temporary, offline, not-content-indexed, no-scrub-data combined with the
normal flag fails at the concrete input `FILE_ATTRIBUTE_SYSTEM = 0x4`: the
source's mask (written with the share-mode constants `0x1|0x2|0x4`) keeps
the system bit, so the applied value is `0x84`, not `0x80`. -/
theorem C2_counterexample :
    M2SetFileAttributes_applied FILE_ATTRIBUTE_SYSTEM ≠
      specApplied FILE_ATTRIBUTE_SYSTEM := by decide

/-- **C2** (amended): for every input bitmask, the attribute value actually
applied by `M2SetFileAttributes` equals the input restricted to the
recognized flags — read-only, hidden, **system**, archive, temporary,
offline, not-content-indexed, no-scrub-data — combined with the normal
flag; the normal bit is always set in the applied value. -/
theorem C2_applied_masks_recognized_and_forces_normal (dwFileAttributes : Nat) :
    M2SetFileAttributes_applied dwFileAttributes =
      ((dwFileAttributes &&& (
          FILE_ATTRIBUTE_READONLY |||
          FILE_ATTRIBUTE_HIDDEN |||
          FILE_ATTRIBUTE_SYSTEM |||
          FILE_ATTRIBUTE_ARCHIVE |||
          FILE_ATTRIBUTE_TEMPORARY |||
          FILE_ATTRIBUTE_OFFLINE |||
          FILE_ATTRIBUTE_NOT_CONTENT_INDEXED |||
          FILE_ATTRIBUTE_NO_SCRUB_DATA)) |||
        FILE_ATTRIBUTE_NORMAL) ∧
    (M2SetFileAttributes_applied dwFileAttributes).testBit 7 = true := by
  refine ⟨rfl, ?_⟩
  have h7 : Nat.testBit FILE_ATTRIBUTE_NORMAL 7 = true := by decide
  rw [M2SetFileAttributes_applied, Nat.testBit_or, h7]
  simp

/-- **C6**: the value the unprotect step passes to the attribute-write call,
`OldAttribute & (-1 ^ FILE_ATTRIBUTE_READONLY)`, is the previously read
attribute set with exactly the read-only bit (bit 0) cleared: bit 0 of the
result is clear, and every other bit agrees with the input. -/
theorem C6_unprotectValue_clears_exactly_readonly (a : Nat) (h : a < 2 ^ 32) :
    (unprotectValue a).testBit 0 = false ∧
    ∀ i : Nat, i ≠ 0 → (unprotectValue a).testBit i = a.testBit i := by
  constructor
  · have hm : Nat.testBit ((2 ^ 32 - 1) ^^^ FILE_ATTRIBUTE_READONLY) 0 = false := by
      decide
    rw [unprotectValue, Nat.testBit_and, hm]
    simp
  · intro i hi
    rw [unprotectValue, Nat.testBit_and, FILE_ATTRIBUTE_READONLY,
      Nat.testBit_xor, Nat.testBit_two_pow_sub_one]
    have hone : Nat.testBit 1 i = false :=
      Nat.testBit_lt_two_pow (Nat.one_lt_two_pow hi)
    by_cases h32 : i < 32
    · simp [h32, hone]
    · have ha : a.testBit i = false :=
        Nat.testBit_lt_two_pow
          (lt_of_lt_of_le h (Nat.pow_le_pow_right (by norm_num) (by omega)))
      simp [h32, hone, ha]

/-- **C6** (witness): at the concrete attribute set `0x23`
(read-only + hidden + archive), the unprotect value has its read-only bit
clear. -/
theorem C6_witness :
    (unprotectValue 0x23).testBit 0 = false :=
  (C6_unprotectValue_clears_exactly_readonly 0x23 (by norm_num)).1

/-- **C1**: the restore write (line 190) happens exactly when the force flag
was set and the delete-disposition step ran and failed: a successful
deletion never triggers restoration, a run with the force flag false never
writes a restore, and an aborted open (the disposition step never ran)
never writes a restore.  The well-formedness hypothesis says a failing
disposition call left a nonzero 32-bit last-error code. -/
theorem C1_restore_iff_force_and_delete_failed (env : DeleteEnv)
    (bForce : Bool) (hwf : env.dispErr % 2 ^ 32 ≠ 0) :
    countEvent isRestoreWrite (M2DeleteFile env bForce).2 = 1 ↔
      bForce = true ∧ env.openOk = true ∧ env.dispOk = false := by
  unfold M2DeleteFile
  cases ho : env.openOk
  · simp [countEvent, isRestoreWrite]
  · cases hf : bForce
    · simp [boolToInt, countEvent, isRestoreWrite]
    · cases hd : env.dispOk
      · simp [boolToInt, SUCCEEDED_M2GetLastError env.dispErr hwf,
          countEvent, isRestoreWrite]
      · simp [boolToInt, SUCCEEDED_S_OK, countEvent, isRestoreWrite]

/-- **C1** (witness): a concrete run — open succeeds, force flag set,
disposition call fails with last error 5 (access denied) — performs exactly
one restore write. -/
theorem C1_witness :
    countEvent isRestoreWrite
      (M2DeleteFile
        { openOk := true, openErr := 0, curAttr := 0x23, unprotectHr := 0,
          dispOk := false, dispErr := 5, restoreHr := 0 } true).2 = 1 :=
  (C1_restore_iff_force_and_delete_failed
      { openOk := true, openErr := 0, curAttr := 0x23, unprotectHr := 0,
        dispOk := false, dispErr := 5, restoreHr := 0 } true
      (by decide)).mpr ⟨rfl, rfl, rfl⟩

/-- **C3**: the result code `M2DeleteFile` returns never depends on the
outcome of the unprotect write or of the best-effort restore write: two
runs that differ only in those two outcomes return the same result code. -/
theorem C3_result_independent_of_compensating_steps (env : DeleteEnv)
    (bForce : Bool) (u1 r1 u2 r2 : Nat) :
    (M2DeleteFile { env with unprotectHr := u1, restoreHr := r1 } bForce).1 =
      (M2DeleteFile { env with unprotectHr := u2, restoreHr := r2 } bForce).1 :=
  rfl

/-- **C4**: when the initial open fails, `M2DeleteFile` returns the
translated last-error code of the failed open and performs no attribute
read, no attribute write, and no delete-disposition call. -/
theorem C4_open_failure_aborts (env : DeleteEnv) (bForce : Bool)
    (h : env.openOk = false) :
    (M2DeleteFile env bForce).1 = M2GetLastError env.openErr ∧
    countEvent isAttrRead (M2DeleteFile env bForce).2 = 0 ∧
    countEvent isAttrWrite (M2DeleteFile env bForce).2 = 0 ∧
    countEvent isDispositionCall (M2DeleteFile env bForce).2 = 0 := by
  simp [M2DeleteFile, h, countEvent, isAttrRead, isAttrWrite,
    isDispositionCall]

/-- **C4** (witness): a concrete run whose open fails with last error 2
(file not found), force flag set, aborts with the translated code and
touches nothing. -/
theorem C4_witness :
    (M2DeleteFile
        { openOk := false, openErr := 2, curAttr := 0, unprotectHr := 0,
          dispOk := true, dispErr := 0, restoreHr := 0 } true).1 =
      M2GetLastError 2 ∧
    countEvent isAttrRead
      (M2DeleteFile
        { openOk := false, openErr := 2, curAttr := 0, unprotectHr := 0,
          dispOk := true, dispErr := 0, restoreHr := 0 } true).2 = 0 ∧
    countEvent isAttrWrite
      (M2DeleteFile
        { openOk := false, openErr := 2, curAttr := 0, unprotectHr := 0,
          dispOk := true, dispErr := 0, restoreHr := 0 } true).2 = 0 ∧
    countEvent isDispositionCall
      (M2DeleteFile
        { openOk := false, openErr := 2, curAttr := 0, unprotectHr := 0,
          dispOk := true, dispErr := 0, restoreHr := 0 } true).2 = 0 :=
  C4_open_failure_aborts
    { openOk := false, openErr := 2, curAttr := 0, unprotectHr := 0,
      dispOk := true, dispErr := 0, restoreHr := 0 } true rfl

/-- **C5**: a run of `M2DeleteFile` with the force flag false never reads
and never writes attributes, whatever the outcomes of the open and of the
deletion step. -/
theorem C5_no_attribute_mutation_without_force (env : DeleteEnv) :
    countEvent isAttrRead (M2DeleteFile env false).2 = 0 ∧
    countEvent isAttrWrite (M2DeleteFile env false).2 = 0 := by
  unfold M2DeleteFile
  cases ho : env.openOk <;>
    simp [boolToInt, countEvent, isAttrRead, isAttrWrite]

/-- **C9**: every run of `M2DeleteFile` — success, open failure,
delete-disposition failure, with or without the force flag — performs the
handle-release call exactly once. -/
theorem C9_closeHandle_exactly_once (env : DeleteEnv) (bForce : Bool) :
    countEvent isCloseHandle (M2DeleteFile env bForce).2 = 1 := by
  unfold M2DeleteFile
  cases ho : env.openOk
  · simp [countEvent, isCloseHandle]
  · cases hf : bForce <;>
      · simp only [Bool.false_eq_true, if_false, if_true]
        split <;>
          simp [countEvent, isCloseHandle]

/-- `resize` gives a string of exactly the requested length. -/
theorem resizeStr_length (s : List Nat) (n : Nat) :
    (resizeStr s n).length = n := by
  simp [resizeStr]
  omega

/-- Writing through `&s[0]` leaves the string's length unchanged. -/
theorem writeBuffer_length (buf data : List Nat) :
    (writeBuffer buf data).length = buf.length := by
  simp [writeBuffer]
  omega

/-- **C7**: `M2GetWindowsDirectory` returns the translated last error when
either system call fails, the `E_UNEXPECTED` sentinel when the second
call's returned length differs from the string's size, its output string is
empty whenever the returned code is a failure, and the output is non-empty
only when the returned code succeeds.  The well-formedness hypotheses say a
failing call left a nonzero 32-bit last-error code. -/
theorem C7_windows_directory_clears_on_failure (env : WinDirEnv)
    (s0 : List Nat) (hp : env.probeErr % 2 ^ 32 ≠ 0)
    (hf : env.fillErr % 2 ^ 32 ≠ 0) :
    (env.probeLen = 0 →
      (M2GetWindowsDirectory env s0).1 = M2GetLastError env.probeErr) ∧
    (env.probeLen ≠ 0 → env.fillLen = 0 →
      (M2GetWindowsDirectory env s0).1 = M2GetLastError env.fillErr) ∧
    (env.probeLen ≠ 0 → env.fillLen ≠ 0 → env.probeLen - 1 ≠ env.fillLen →
      (M2GetWindowsDirectory env s0).1 = E_UNEXPECTED) ∧
    (FAILED (M2GetWindowsDirectory env s0).1 = true →
      (M2GetWindowsDirectory env s0).2 = []) ∧
    ((M2GetWindowsDirectory env s0).2 ≠ [] →
      SUCCEEDED (M2GetWindowsDirectory env s0).1 = true) := by
  have hfailp := SUCCEEDED_M2GetLastError env.probeErr hp
  have hfailf := SUCCEEDED_M2GetLastError env.fillErr hf
  have hlen :
      (writeBuffer (resizeStr s0 (env.probeLen - 1)) env.fillData).length =
        env.probeLen - 1 := by
    rw [writeBuffer_length, resizeStr_length]
  unfold M2GetWindowsDirectory
  by_cases h0 : env.probeLen = 0
  · simp [h0, FAILED, hfailp]
  · by_cases h1 : env.fillLen = 0
    · simp [h0, h1, FAILED, hfailf]
    · have hse : SUCCEEDED E_UNEXPECTED = false := by decide
      by_cases h2 : env.probeLen - 1 = env.fillLen
      · rw [h2] at hlen
        simp [h0, h1, hlen, h2, FAILED, SUCCEEDED_S_OK]
      · simp [h0, h1, hlen, h2, FAILED, hse]

/-- **C7** (witness): a concrete run whose probe call fails with last error
5 returns the translated code, and its output string is empty. -/
theorem C7_witness :
    (M2GetWindowsDirectory
        { probeLen := 0, probeErr := 5, fillLen := 0, fillErr := 5,
          fillData := [] } [1, 2]).1 = M2GetLastError 5 ∧
    (M2GetWindowsDirectory
        { probeLen := 0, probeErr := 5, fillLen := 0, fillErr := 5,
          fillData := [] } [1, 2]).2 = [] := by
  have h :=
    C7_windows_directory_clears_on_failure
      { probeLen := 0, probeErr := 5, fillLen := 0, fillErr := 5,
        fillData := [] } [1, 2] (by decide) (by decide)
  exact ⟨h.1 rfl, h.2.2.2.1 (by decide)⟩

/-- **C8**: both size queries leave the out-value at its entry value zero on
every failing run (open failure or query failure), and write the queried
size, converted to an unsigned 64-bit value, only when both calls
succeed. -/
theorem C8_size_queries_zero_on_failure (env : SizeQueryEnv) :
    ((env.openOk = false ∨ env.queryOk = false) →
      (M2GetFileAllocationSize env).2 = 0 ∧ (M2GetFileSize env).2 = 0) ∧
    (env.openOk = true → env.queryOk = true →
      (M2GetFileAllocationSize env).1 = S_OK ∧
      (M2GetFileAllocationSize env).2 = toULONGLONG env.allocationSize ∧
      (M2GetFileSize env).1 = S_OK ∧
      (M2GetFileSize env).2 = toULONGLONG env.endOfFile) := by
  constructor
  · intro h
    cases ho : env.openOk <;> cases hq : env.queryOk <;>
      simp_all [M2GetFileAllocationSize, M2GetFileSize]
  · intro h1 h2
    simp [M2GetFileAllocationSize, M2GetFileSize, h1, h2]

/-- **C8** (witness): a concrete run whose open fails leaves both out-values
at zero even though the file's sizes are nonzero. -/
theorem C8_witness :
    (M2GetFileAllocationSize
        { openOk := false, openErr := 2, queryOk := true, queryErr := 0,
          allocationSize := 4096, endOfFile := 10 }).2 = 0 ∧
    (M2GetFileSize
        { openOk := false, openErr := 2, queryOk := true, queryErr := 0,
          allocationSize := 4096, endOfFile := 10 }).2 = 0 :=
  (C8_size_queries_zero_on_failure
      { openOk := false, openErr := 2, queryOk := true, queryErr := 0,
        allocationSize := 4096, endOfFile := 10 }).1 (Or.inl rfl)

/-- **C10**: when `M2LoadResource` finds the resource but the load step
fails, it returns a failing code while the out-structure keeps the found
resource's size in `Size` and a null `Pointer` — the structure is zeroed
only at entry, so a failing call can return a nonzero `Size`.  The
well-formedness hypothesis says the failing load left a nonzero 32-bit
last-error code. -/
theorem C10_load_failure_keeps_found_size (env : LoadResEnv)
    (hn : env.infoNull = false) (hfind : env.findOk = true)
    (hload : env.loadOk = false) (herr : env.loadErr % 2 ^ 32 ≠ 0) :
    FAILED (M2LoadResource env).1 = true ∧
    (M2LoadResource env).2 = some { Size := env.resSize, Pointer := 0 } := by
  have hfail := SUCCEEDED_M2GetLastError env.loadErr herr
  rw [M2GetLastError] at hfail
  simp [M2LoadResource, hn, hfind, hload, FAILED, hfail]

/-- **C10** (witness): a concrete failing load — resource found with size 5,
load fails with last error 8 — returns a failure code with `Size = 5` and a
null pointer. -/
theorem C10_witness :
    FAILED
      (M2LoadResource
        { infoNull := false, findOk := true, findErr := 0, resSize := 5,
          loadOk := false, loadErr := 8, lockPtr := 0 }).1 = true ∧
    (M2LoadResource
        { infoNull := false, findOk := true, findErr := 0, resSize := 5,
          loadOk := false, loadErr := 8, lockPtr := 0 }).2 =
      some { Size := 5, Pointer := 0 } :=
  C10_load_failure_keeps_found_size
    { infoNull := false, findOk := true, findErr := 0, resSize := 5,
      loadOk := false, loadErr := 8, lockPtr := 0 }
    rfl rfl rfl (by decide)
